import Mathlib

/-!
Shallow embedding of the single-file HTTP daemon `src/app.js` (a Node.js
server).  The request handler is modelled as a pure function from the
startup environment, a snapshot of runtime system values, and an inbound
request to a handler step: either an immediate HTTP response or a request
to the external process runner.  The runner's callback (lines 126-149 of
the source) is modelled separately as `execCallback`, taking the outcome
the runner delivers.
-/

namespace App

/-- JSON values as produced by `JSON.stringify` on the plain objects the
server builds.  Field order in an object is the insertion order of the
source object literal. -/
inductive Json where
  | null : Json
  | bool (b : Bool) : Json
  | num (q : ℚ) : Json
  | str (s : String) : Json
  | obj (fields : List (String × Json)) : Json

/-- The keys of a JSON object (empty for non-objects). -/
def Json.keys : Json → List String
  | .obj fs => fs.map Prod.fst
  | _ => []

/-- Field lookup in a JSON object. -/
def Json.getField : Json → String → Option Json
  | .obj fs, k => fs.lookup k
  | _, _ => none

/-- A response body: empty (`res.end()`), plain text, HTML, or JSON. -/
inductive Body where
  | empty : Body
  | text (s : String) : Body
  | html (s : String) : Body
  | json (j : Json) : Body

/-- An HTTP response as the handler produces it.  `corsHeaders` records
that the three CORS headers were set on the response (the handler sets
them on every response, lines 26-28). -/
structure Response where
  status : Nat
  contentType : Option String
  body : Body
  corsHeaders : Bool

/-- The three CORS headers set at the top of the handler (lines 26-28). -/
def corsHeaderList : List (String × String) :=
  [("Access-Control-Allow-Origin", "*"),
   ("Access-Control-Allow-Methods", "GET, POST, OPTIONS"),
   ("Access-Control-Allow-Headers", "Content-Type, x-api-key")]

/-- The headers visible on a response. -/
def Response.headers (r : Response) : List (String × String) :=
  (if r.corsHeaders then corsHeaderList else []) ++
    (match r.contentType with
     | some ct => [("Content-Type", ct)]
     | none => [])

/-- `sendJson(res, code, obj)` (lines 19-22): JSON content type, the
object serialized as the body. -/
def sendJson (code : Nat) (o : Json) : Response :=
  { status := code, contentType := some "application/json",
    body := .json o, corsHeaders := true }

/-- JS `a || b` where `a` is a possibly-undefined string: `undefined` and
the empty string are falsy. -/
def jsOrStr (a : Option String) (b : String) : String :=
  match a with
  | none => b
  | some s => if s = "" then b else s

/-- JS truthiness of a string. -/
def jsTruthyStr (s : String) : Bool := s != ""

/-- JS truthiness of a possibly-null/undefined string. -/
def jsTruthyOptStr : Option String → Bool
  | none => false
  | some s => s != ""

/-- JS `x || null` for a possibly-undefined number (`0` is falsy). -/
def jsOrNullInt : Option Int → Option Int
  | some n => if n = 0 then none else some n
  | none => none

/-- JS `x || null` for a possibly-undefined string (`""` is falsy). -/
def jsOrNullStr : Option String → Option String
  | some s => if s = "" then none else some s
  | none => none

/-- The process environment at startup: the two variables the server
reads (lines 5-7). -/
structure Env where
  PORT : Option String
  ADMIN_API_KEY : Option String

/-- `const REQUIRE_API_KEY = !!process.env.ADMIN_API_KEY` (line 6). -/
def REQUIRE_API_KEY (env : Env) : Bool := jsTruthyOptStr env.ADMIN_API_KEY

/-- `const ADMIN_API_KEY = process.env.ADMIN_API_KEY || ''` (line 7). -/
def ADMIN_API_KEY (env : Env) : String := jsOrStr env.ADMIN_API_KEY ""

/-- `const PORT = process.env.PORT || 80` (line 5), as interpolated into
the home page. -/
def PORT (env : Env) : String := jsOrStr env.PORT "80"

/-- The command registry (lines 11-17): key → literal shell command, in
source order. -/
def ALLOWED_COMMANDS : List (String × String) :=
  [("uptime", "uptime"),
   ("disk", "df -h"),
   ("memory", "free -m")]

/-- `Object.prototype.hasOwnProperty.call(ALLOWED_COMMANDS, k)` (line
117): membership among the object's own keys only — no prototype chain,
exact string comparison. -/
def hasOwnProperty (assoc : List (String × String)) (k : String) : Bool :=
  (assoc.lookup k).isSome

/-- Snapshot of the runtime values interpolated into the home page and
the health body: `process.version`, `process.platform`,
`process.uptime()`, `new Date().toISOString()`. -/
structure Sys where
  nodeVersion : String
  platform : String
  uptimeSeconds : ℚ
  nowIso : String

/-- The parts of `new URL(req.url, base)` the handler uses: `pathname`
and `searchParams.get('command')` (`none` when the parameter is absent,
line 111). -/
structure UrlParts where
  pathname : String
  command : Option String

/-- An inbound request as the handler observes it.  `url = none` models
`new URL(req.url, ...)` throwing on a malformed request URL (caught at
line 157). -/
structure Request where
  method : String
  xApiKey : Option String
  url : Option UrlParts

/-- Options passed to `exec` (line 126). -/
structure ExecOpts where
  timeout : Nat
  maxBuffer : Nat

/-- The error object `exec` passes to its callback on failure: a message,
and possibly-undefined `code` and `signal` fields. -/
structure ExecErr where
  message : String
  code : Option Int
  signal : Option String

/-- The callback arguments `(err, stdout, stderr)` delivered by the
external process runner. -/
structure ExecOutcome where
  err : Option ExecErr
  stdout : String
  stderr : String

/-- Modelled from the spec: the external process runner
(`child_process.exec`) is not part of this repository's sources.  Per the
spec (section 4.1 item 5 and section 5), when the command times out or
its combined output exceeds `maxBuffer` the runner terminates the child
and invokes the callback with a non-null error.  This predicate states
that an outcome was produced by such an overflow termination, hence
carries an error object. -/
def OverflowTerminated (o : ExecOutcome) : Prop :=
  ∃ e, o.err = some e

/-- The `exec` callback (lines 126-149): on `err`, a 200 failure body
with `error`, `exitCode`, `signal`; otherwise a 200 success body. -/
def execCallback (commandName : String) (o : ExecOutcome) : Response :=
  match o.err with
  | some e =>
    sendJson 200 (.obj
      [("command", .str commandName),
       ("allowed", .bool true),
       ("error", .str e.message),
       ("exitCode",
         match jsOrNullInt e.code with
         | some n => .num n
         | none => .null),
       ("signal",
         match jsOrNullStr e.signal with
         | some s => .str s
         | none => .null),
       ("stdout", .str (if jsTruthyStr o.stdout then o.stdout else "")),
       ("stderr", .str (if jsTruthyStr o.stderr then o.stderr else ""))])
  | none =>
    sendJson 200 (.obj
      [("command", .str commandName),
       ("allowed", .bool true),
       ("stdout", .str (if jsTruthyStr o.stdout then o.stdout else "")),
       ("stderr", .str (if jsTruthyStr o.stderr then o.stderr else ""))])

/-- What a single invocation of the request handler does: either it
writes a response, or it hands a shell command string to the external
process runner (whose callback then writes the response via
`execCallback`). -/
inductive HandlerStep where
  | respond (r : Response)
  | execCmd (commandName : String) (shellCommand : String) (opts : ExecOpts)

/-- `if (!provided || provided !== ADMIN_API_KEY)` with
`provided = (req.headers['x-api-key'] || '').toString()` (lines 104-105). -/
def authRejects (env : Env) (req : Request) : Bool :=
  let provided := jsOrStr req.xApiKey ""
  (!jsTruthyStr provided) || (provided != ADMIN_API_KEY env)

/-- The static home page (lines 44-80), with the four interpolated
runtime values; literal braces of the template are written escaped. -/
def homeHtml (env : Env) (sys : Sys) : String :=
  "\n<!DOCTYPE html>\n<html lang=\"en\">\n<head>\n" ++
  "  <meta charset=\"UTF-8\">\n" ++
  "  <meta name=\"viewport\" content=\"width=device-width, initial-scale=1.0\">\n" ++
  "  <title>Simple Node.js App</title>\n  <style>\n" ++
  "    * \x7b margin: 0; padding: 0; box-sizing: border-box; \x7d\n" ++
  "    body \x7b\n" ++
  "      font-family: -apple-system, BlinkMacSystemFont, \x27Segoe UI\x27, Roboto, Oxygen, Ubuntu, Cantarell, sans-serif;\n" ++
  "      background: #000; color: #fff; min-height: 100vh;\n" ++
  "      display: flex; align-items: center; justify-content: center; padding: 20px;\n" ++
  "    \x7d\n" ++
  "    .container \x7b text-align: center; max-width: 720px; \x7d\n" ++
  "    h1 \x7b font-size: 3rem; margin-bottom: 1rem; font-weight: 300; \x7d\n" ++
  "    p \x7b font-size: 1.1rem; color: #ccc; margin-bottom: 1.5rem; \x7d\n" ++
  "    .info \x7b background: #111; padding: 1.5rem; border-radius: 8px; margin-top: 1.5rem; \x7d\n" ++
  "    .info-item \x7b margin: .6rem 0; padding: .5rem; border-bottom: 1px solid #222; \x7d\n" ++
  "    .label \x7b color: #888; font-size: 0.9rem; \x7d\n" ++
  "    .value \x7b color: #fff; font-size: 1.05rem; margin-top: .25rem; \x7d\n" ++
  "  </style>\n</head>\n<body>\n  <div class=\"container\">\n" ++
  "    <h1>Simple Node.js Application</h1>\n" ++
  "    <p>Running in a Docker container on Azure App Service (or similar)</p>\n" ++
  "    <div class=\"info\">\n" ++
  "      <div class=\"info-item\"><div class=\"label\">Server</div><div class=\"value\">Node.js " ++
  sys.nodeVersion ++ "</div></div>\n" ++
  "      <div class=\"info-item\"><div class=\"label\">Port</div><div class=\"value\">" ++
  PORT env ++ "</div></div>\n" ++
  "      <div class=\"info-item\"><div class=\"label\">Platform</div><div class=\"value\">" ++
  sys.platform ++ "</div></div>\n" ++
  "      <div class=\"info-item\"><div class=\"label\">Uptime</div><div class=\"value\">" ++
  toString (⌊sys.uptimeSeconds⌋) ++ " seconds</div></div>\n" ++
  "    </div>\n  </div>\n</body>\n</html>\n      "

/-- Lines 111-151: the stage of `/cmd` handling after the method and
API-key checks have passed — the `command` query parameter check, the
registry lookup, and the dispatch to `exec`. -/
def cmdDispatch (commandName : Option String) : HandlerStep :=
  if !jsTruthyOptStr commandName then
    .respond (sendJson 400 (.obj [("error", .str "Missing \"command\" query parameter")]))
  else
    let name := commandName.getD ""
    if !hasOwnProperty ALLOWED_COMMANDS name then
      .respond (sendJson 403 (.obj [("error", .str "Command not allowed")]))
    else
      .execCmd name (jsOrStr (ALLOWED_COMMANDS.lookup name) "")
        { timeout := 5000, maxBuffer := 1024 * 1024 }

/-- The request handler (lines 24-161): CORS headers, OPTIONS
short-circuit, URL parse (throw → 500), then routing on the pathname. -/
def handle (env : Env) (sys : Sys) (req : Request) : HandlerStep :=
  if req.method = "OPTIONS" then
    .respond { status := 200, contentType := none, body := .empty, corsHeaders := true }
  else
    match req.url with
    | none =>
      .respond (sendJson 500 (.obj [("error", .str "Internal server error")]))
    | some u =>
      if u.pathname = "/" ∨ u.pathname = "/index.html" then
        .respond { status := 200, contentType := some "text/html",
                   body := .html (homeHtml env sys), corsHeaders := true }
      else if u.pathname = "/health" then
        .respond (sendJson 200 (.obj
          [("status", .str "healthy"),
           ("timestamp", .str sys.nowIso),
           ("uptime_seconds", .num sys.uptimeSeconds)]))
      else if u.pathname = "/cmd" then
        if req.method ≠ "GET" then
          .respond (sendJson 405 (.obj [("error", .str "Method not allowed. Use GET.")]))
        else if REQUIRE_API_KEY env && authRejects env req then
          .respond (sendJson 401 (.obj [("error", .str "Unauthorized: missing or invalid API key")]))
        else
          cmdDispatch u.command
      else
        .respond { status := 404, contentType := some "text/plain",
                   body := .text "Not Found", corsHeaders := true }

end App

namespace App

set_option maxRecDepth 8000

/-! Helper lemmas about the registry lookup and the handler's branches. -/

theorem lookup_allowed_eq (k : String) :
    ALLOWED_COMMANDS.lookup k =
      if k = "uptime" then some "uptime"
      else if k = "disk" then some "df -h"
      else if k = "memory" then some "free -m"
      else none := by
  by_cases h1 : k = "uptime"
  · subst h1; rfl
  · by_cases h2 : k = "disk"
    · subst h2; rfl
    · by_cases h3 : k = "memory"
      · subst h3; rfl
      · have b1 : (k == "uptime") = false := beq_eq_false_iff_ne.mpr h1
        have b2 : (k == "disk") = false := beq_eq_false_iff_ne.mpr h2
        have b3 : (k == "memory") = false := beq_eq_false_iff_ne.mpr h3
        simp [ALLOWED_COMMANDS, List.lookup, b1, b2, b3, h1, h2, h3]

theorem hasOwnProperty_allowed_iff (k : String) :
    hasOwnProperty ALLOWED_COMMANDS k = true ↔
      k = "uptime" ∨ k = "disk" ∨ k = "memory" := by
  rw [hasOwnProperty, lookup_allowed_eq]
  by_cases h1 : k = "uptime" <;> by_cases h2 : k = "disk" <;>
    by_cases h3 : k = "memory" <;> simp [h1, h2, h3]

theorem handle_cmd_get (env : Env) (sys : Sys) (req : Request) (u : UrlParts)
    (hu : req.url = some u) (hp : u.pathname = "/cmd") (hm : req.method = "GET")
    (hauth : (REQUIRE_API_KEY env && authRejects env req) = false) :
    handle env sys req = cmdDispatch u.command := by
  unfold handle
  rw [hu, hm]
  simp +decide [hauth, hp]

theorem handle_execCmd_inv (env : Env) (sys : Sys) (req : Request)
    (n s : String) (o : ExecOpts) (h : handle env sys req = .execCmd n s o) :
    (n = "uptime" ∧ s = "uptime" ∨ n = "disk" ∧ s = "df -h" ∨
      n = "memory" ∧ s = "free -m") ∧
    o.timeout = 5000 ∧ o.maxBuffer = 1024 * 1024 := by
  unfold handle at h
  split at h
  · simp at h
  · split at h
    · simp at h
    · split at h
      · simp at h
      · split at h
        · simp at h
        · split at h
          · split at h
            · simp at h
            · split at h
              · simp at h
              · simp only [cmdDispatch] at h
                split at h
                · simp at h
                · split at h
                  · simp at h
                  · rename_i uu _ _ _ hown
                    simp at hown
                    injection h with hn hs ho
                    rcases (hasOwnProperty_allowed_iff _).1 hown with h1 | h1 | h1 <;>
                      rw [h1] at hn hs <;> subst hn <;> subst ho <;> simp_all <;>
                      rw [← hs] <;> rfl
          · simp at h

theorem authRejects_of_ne (env : Env) (req : Request) (k : String)
    (hk : env.ADMIN_API_KEY = some k) (hk0 : k ≠ "")
    (hbad : req.xApiKey ≠ some k) :
    authRejects env req = true := by
  unfold authRejects ADMIN_API_KEY jsTruthyStr
  rw [hk]
  cases hx : req.xApiKey with
  | none => simp [jsOrStr]
  | some s =>
    have hs : s ≠ k := by
      intro h
      exact hbad (by rw [hx, h])
    by_cases h0 : s = ""
    · subst h0; simp [jsOrStr]
    · simp [jsOrStr, h0, hk0, hs]

theorem authRejects_of_eq (env : Env) (req : Request) (k : String)
    (hk : env.ADMIN_API_KEY = some k) (hk0 : k ≠ "")
    (hgood : req.xApiKey = some k) :
    authRejects env req = false := by
  unfold authRejects ADMIN_API_KEY jsTruthyStr
  rw [hk, hgood]
  simp [jsOrStr, hk0]

theorem REQUIRE_of_some (env : Env) (k : String)
    (hk : env.ADMIN_API_KEY = some k) (hk0 : k ≠ "") :
    REQUIRE_API_KEY env = true := by
  unfold REQUIRE_API_KEY jsTruthyOptStr
  rw [hk]
  simp [hk0]

theorem handle_cmd_unauthorized (env : Env) (sys : Sys) (req : Request)
    (u : UrlParts) (k : String)
    (hk : env.ADMIN_API_KEY = some k) (hk0 : k ≠ "")
    (hu : req.url = some u) (hp : u.pathname = "/cmd") (hm : req.method = "GET")
    (hbad : req.xApiKey ≠ some k) :
    handle env sys req =
      .respond (sendJson 401 (.obj
        [("error", .str "Unauthorized: missing or invalid API key")])) := by
  unfold handle
  rw [hu, hm]
  simp +decide [hp, REQUIRE_of_some env k hk hk0, authRejects_of_ne env req k hk hk0 hbad]

/-- C1: on `/cmd`, once the method, auth, and non-empty-parameter checks
have passed, a `command` value that is not exactly one of the registry
keys "uptime", "disk", "memory" is answered with 403 and body
`{error: "Command not allowed"}`, and nothing is handed to the process
runner; conversely, whenever the handler does hand a command to the
runner, the command name is one of the three registry keys and the shell
string is one of the three server-defined command strings. -/
theorem cmd_unknown_command_rejected :
    (∀ (env : Env) (sys : Sys) (req : Request) (u : UrlParts) (c : String),
      req.url = some u → u.pathname = "/cmd" → req.method = "GET" →
      (REQUIRE_API_KEY env && authRejects env req) = false →
      u.command = some c → c ≠ "" →
      c ∉ ["uptime", "disk", "memory"] →
      handle env sys req =
        .respond (sendJson 403 (.obj [("error", .str "Command not allowed")]))) ∧
    (∀ (env : Env) (sys : Sys) (req : Request) (n s : String) (o : ExecOpts),
      handle env sys req = .execCmd n s o →
      n ∈ ["uptime", "disk", "memory"] ∧ s ∈ ["uptime", "df -h", "free -m"]) := by
  constructor
  · intro env sys req u c hu hp hm hauth hc hcne hnot
    simp only [List.mem_cons, List.not_mem_nil, or_false, not_or] at hnot
    obtain ⟨n1, n2, n3⟩ := hnot
    rw [handle_cmd_get env sys req u hu hp hm hauth, hc]
    have ht : jsTruthyOptStr (some c) = true := by simp [jsTruthyOptStr, hcne]
    have hh : hasOwnProperty ALLOWED_COMMANDS c = false := by
      rw [Bool.eq_false_iff]
      intro hcontra
      rcases (hasOwnProperty_allowed_iff c).1 hcontra with h | h | h
      · exact n1 h
      · exact n2 h
      · exact n3 h
    simp [cmdDispatch, ht, hh]
  · intro env sys req n s o h
    rcases handle_execCmd_inv env sys req n s o h with ⟨hns, _, _⟩
    rcases hns with ⟨hn, hs⟩ | ⟨hn, hs⟩ | ⟨hn, hs⟩ <;> subst hn <;> subst hs <;> simp

theorem cmd_unknown_command_rejected_witness :
    handle ⟨none, none⟩ ⟨"v20.11.0", "linux", 0, "2026-01-01T00:00:00.000Z"⟩
        ⟨"GET", none, some ⟨"/cmd", some "Uptime"⟩⟩ =
      .respond (sendJson 403 (.obj [("error", .str "Command not allowed")])) :=
  cmd_unknown_command_rejected.1 ⟨none, none⟩
    ⟨"v20.11.0", "linux", 0, "2026-01-01T00:00:00.000Z"⟩
    ⟨"GET", none, some ⟨"/cmd", some "Uptime"⟩⟩ ⟨"/cmd", some "Uptime"⟩ "Uptime"
    rfl rfl rfl rfl rfl (by decide) (by decide)

/-- C2: with a non-empty admin key configured, a GET to `/cmd` whose
`x-api-key` header is missing or not exactly the key is answered 401 with
body `{error: "Unauthorized: missing or invalid API key"}` and nothing is
executed; a header exactly equal to the key passes the check (handling
proceeds to the `command`-parameter stage); with no key configured the
check is skipped for every request (handling always proceeds to the
`command`-parameter stage). -/
theorem api_key_gate :
    (∀ (env : Env) (sys : Sys) (req : Request) (u : UrlParts) (k : String),
      env.ADMIN_API_KEY = some k → k ≠ "" →
      req.url = some u → u.pathname = "/cmd" → req.method = "GET" →
      req.xApiKey ≠ some k →
      handle env sys req =
        .respond (sendJson 401 (.obj
          [("error", .str "Unauthorized: missing or invalid API key")]))) ∧
    (∀ (env : Env) (sys : Sys) (req : Request) (u : UrlParts) (k : String),
      env.ADMIN_API_KEY = some k → k ≠ "" →
      req.url = some u → u.pathname = "/cmd" → req.method = "GET" →
      req.xApiKey = some k →
      handle env sys req = cmdDispatch u.command) ∧
    (∀ (env : Env) (sys : Sys) (req : Request) (u : UrlParts),
      REQUIRE_API_KEY env = false →
      req.url = some u → u.pathname = "/cmd" → req.method = "GET" →
      handle env sys req = cmdDispatch u.command) := by
  refine ⟨?_, ?_, ?_⟩
  · intro env sys req u k hk hk0 hu hp hm hbad
    exact handle_cmd_unauthorized env sys req u k hk hk0 hu hp hm hbad
  · intro env sys req u k hk hk0 hu hp hm hgood
    exact handle_cmd_get env sys req u hu hp hm
      (by rw [authRejects_of_eq env req k hk hk0 hgood, Bool.and_false])
  · intro env sys req u hnk hu hp hm
    exact handle_cmd_get env sys req u hu hp hm (by rw [hnk, Bool.false_and])

theorem api_key_gate_witness :
    handle ⟨none, some "secret"⟩ ⟨"v20.11.0", "linux", 0, "2026-01-01T00:00:00.000Z"⟩
        ⟨"GET", some "wrong", some ⟨"/cmd", some "uptime"⟩⟩ =
      .respond (sendJson 401 (.obj
        [("error", .str "Unauthorized: missing or invalid API key")])) :=
  api_key_gate.1 ⟨none, some "secret"⟩
    ⟨"v20.11.0", "linux", 0, "2026-01-01T00:00:00.000Z"⟩
    ⟨"GET", some "wrong", some ⟨"/cmd", some "uptime"⟩⟩ ⟨"/cmd", some "uptime"⟩
    "secret" rfl (by decide) rfl rfl rfl (by decide)

theorem jsTruthy_collapse (s : String) :
    (if jsTruthyStr s then s else "") = s := by
  unfold jsTruthyStr
  by_cases h : s = "" <;> simp [h]

/-- C3: whenever the runner reports a failure (it passed a non-null error
object: non-zero exit, signal, timeout, or overflow), the callback
responds 200 — never 4xx/5xx — with a JSON body whose fields are exactly
command, allowed (true), error (the message string), exitCode (the exit
code or null), signal (the signal or null), stdout, and stderr. -/
theorem cmd_failure_response (n : String) (o : ExecOutcome) (e : ExecErr)
    (h : o.err = some e) :
    (execCallback n o).status = 200 ∧
    ∃ j, (execCallback n o).body = .json j ∧
      j.keys = ["command", "allowed", "error", "exitCode", "signal",
                "stdout", "stderr"] ∧
      j.getField "command" = some (.str n) ∧
      j.getField "allowed" = some (.bool true) ∧
      j.getField "error" = some (.str e.message) ∧
      (j.getField "exitCode" = some .null ∨
        ∃ c : ℤ, e.code = some c ∧ j.getField "exitCode" = some (.num c)) ∧
      (j.getField "signal" = some .null ∨
        ∃ sg, e.signal = some sg ∧ j.getField "signal" = some (.str sg)) ∧
      j.getField "stdout" = some (.str o.stdout) ∧
      j.getField "stderr" = some (.str o.stderr) := by
  unfold execCallback
  rw [h]
  refine ⟨rfl, _, rfl, rfl, rfl, rfl, rfl, ?_, ?_, ?_, ?_⟩
  · rcases hc : e.code with _ | c
    · exact Or.inl (by simp [Json.getField, jsOrNullInt, List.lookup])
    · by_cases h0 : c = 0
      · subst h0
        exact Or.inl (by simp [Json.getField, jsOrNullInt, List.lookup])
      · exact Or.inr ⟨c, rfl, by simp [Json.getField, jsOrNullInt, h0, List.lookup]⟩
  · rcases hs : e.signal with _ | sg
    · exact Or.inl (by simp [Json.getField, jsOrNullStr, List.lookup])
    · by_cases h0 : sg = ""
      · subst h0
        exact Or.inl (by simp [Json.getField, jsOrNullStr, List.lookup])
      · exact Or.inr ⟨sg, rfl, by simp [Json.getField, jsOrNullStr, h0, List.lookup]⟩
  · simp [Json.getField, List.lookup, jsTruthy_collapse]
  · simp [Json.getField, List.lookup, jsTruthy_collapse]

theorem cmd_failure_response_witness :
    (execCallback "uptime"
        ⟨some ⟨"Command failed: uptime", some 1, none⟩, "", "boom"⟩).status = 200 ∧
    ∃ j, (execCallback "uptime"
        ⟨some ⟨"Command failed: uptime", some 1, none⟩, "", "boom"⟩).body = .json j ∧
      j.keys = ["command", "allowed", "error", "exitCode", "signal",
                "stdout", "stderr"] ∧
      j.getField "command" = some (.str "uptime") ∧
      j.getField "allowed" = some (.bool true) ∧
      j.getField "error" = some (.str "Command failed: uptime") ∧
      (j.getField "exitCode" = some .null ∨
        ∃ c : ℤ, (ExecErr.mk "Command failed: uptime" (some 1) none).code = some c ∧
          j.getField "exitCode" = some (.num c)) ∧
      (j.getField "signal" = some .null ∨
        ∃ sg, (ExecErr.mk "Command failed: uptime" (some 1) none).signal = some sg ∧
          j.getField "signal" = some (.str sg)) ∧
      j.getField "stdout" = some (.str "") ∧
      j.getField "stderr" = some (.str "boom") :=
  cmd_failure_response "uptime"
    ⟨some ⟨"Command failed: uptime", some 1, none⟩, "", "boom"⟩
    ⟨"Command failed: uptime", some 1, none⟩ rfl

/-- C4: every command handed to the external process runner carries a
5000 ms timeout and a 1 MiB (1024*1024 bytes) combined output cap; and an
outcome produced by an overflow termination (modelled from the spec: the
runner kills the child and passes a non-null error) is reported through
the 200 failure shape with the `error` field populated — its body is the
seven-field failure object, never the four-field success object. -/
theorem exec_bounds_and_overflow :
    (∀ (env : Env) (sys : Sys) (req : Request) (n s : String) (o : ExecOpts),
      handle env sys req = .execCmd n s o →
      o.timeout = 5000 ∧ o.maxBuffer = 1024 * 1024) ∧
    (∀ (n : String) (o : ExecOutcome), OverflowTerminated o →
      (execCallback n o).status = 200 ∧
      ∃ j, (execCallback n o).body = .json j ∧
        (∃ m, j.getField "error" = some (.str m)) ∧
        j.keys = ["command", "allowed", "error", "exitCode", "signal",
                  "stdout", "stderr"]) := by
  constructor
  · intro env sys req n s o h
    exact (handle_execCmd_inv env sys req n s o h).2
  · intro n o hov
    obtain ⟨e, he⟩ := hov
    unfold execCallback
    rw [he]
    exact ⟨rfl, _, rfl, ⟨e.message, rfl⟩, rfl⟩

theorem exec_bounds_and_overflow_witness :
    ((handle ⟨none, none⟩ ⟨"v20.11.0", "linux", 0, "2026-01-01T00:00:00.000Z"⟩
        ⟨"GET", none, some ⟨"/cmd", some "disk"⟩⟩ =
      .execCmd "disk" "df -h" ⟨5000, 1024 * 1024⟩) ∧
      ((5000 : Nat) = 5000 ∧ (1024 * 1024 : Nat) = 1024 * 1024)) ∧
    ((execCallback "disk"
        ⟨some ⟨"stdout maxBuffer length exceeded", none, some "SIGTERM"⟩,
         "", ""⟩).status = 200 ∧
      ∃ j, (execCallback "disk"
          ⟨some ⟨"stdout maxBuffer length exceeded", none, some "SIGTERM"⟩,
           "", ""⟩).body = .json j ∧
        (∃ m, j.getField "error" = some (.str m)) ∧
        j.keys = ["command", "allowed", "error", "exitCode", "signal",
                  "stdout", "stderr"]) :=
  ⟨⟨rfl, exec_bounds_and_overflow.1 ⟨none, none⟩
      ⟨"v20.11.0", "linux", 0, "2026-01-01T00:00:00.000Z"⟩
      ⟨"GET", none, some ⟨"/cmd", some "disk"⟩⟩ "disk" "df -h" ⟨5000, 1024 * 1024⟩ rfl⟩,
    exec_bounds_and_overflow.2 "disk"
      ⟨some ⟨"stdout maxBuffer length exceeded", none, some "SIGTERM"⟩, "", ""⟩
      ⟨⟨"stdout maxBuffer length exceeded", none, some "SIGTERM"⟩, rfl⟩⟩

/-- C7: when the runner reports success (null error), the callback
responds 200 with a JSON body holding exactly the fields command (the
requested key), allowed (true), stdout, and stderr — the captured streams
as strings, empty when empty — and no error, exitCode, or signal field. -/
theorem cmd_success_response (n : String) (o : ExecOutcome) (h : o.err = none) :
    ∃ j, execCallback n o = sendJson 200 j ∧
      j = .obj [("command", .str n), ("allowed", .bool true),
                ("stdout", .str o.stdout), ("stderr", .str o.stderr)] ∧
      j.keys = ["command", "allowed", "stdout", "stderr"] ∧
      j.getField "error" = none ∧
      j.getField "exitCode" = none ∧
      j.getField "signal" = none := by
  unfold execCallback
  rw [h]
  refine ⟨_, rfl, ?_, ?_, ?_, ?_, ?_⟩
  · rw [jsTruthy_collapse, jsTruthy_collapse]
  · rfl
  · simp +decide [Json.getField, List.lookup]
  · simp +decide [Json.getField, List.lookup]
  · simp +decide [Json.getField, List.lookup]

theorem cmd_success_response_witness :
    ∃ j, execCallback "uptime" ⟨none, " 10:00:00 up 1 day", ""⟩ = sendJson 200 j ∧
      j = .obj [("command", .str "uptime"), ("allowed", .bool true),
                ("stdout", .str " 10:00:00 up 1 day"), ("stderr", .str "")] ∧
      j.keys = ["command", "allowed", "stdout", "stderr"] ∧
      j.getField "error" = none ∧
      j.getField "exitCode" = none ∧
      j.getField "signal" = none :=
  cmd_success_response "uptime" ⟨none, " 10:00:00 up 1 day", ""⟩ rfl

theorem handle_cmd_bad_method (env : Env) (sys : Sys) (req : Request) (u : UrlParts)
    (hu : req.url = some u) (hp : u.pathname = "/cmd")
    (hmg : req.method ≠ "GET") (hmo : req.method ≠ "OPTIONS") :
    handle env sys req =
      .respond (sendJson 405 (.obj [("error", .str "Method not allowed. Use GET.")])) := by
  unfold handle
  rw [if_neg hmo, hu]
  simp +decide [hp, hmg]

/-- C5: on `/cmd` the checks run in the order method, API key, `command`
parameter presence, registry lookup, each failure stopping processing
with its own response; in particular a POST with no `command` parameter
gets 405 (not 400), and under a configured key an unauthenticated request
with no `command` parameter gets 401 (not 400). -/
theorem cmd_check_order :
    (∀ (env : Env) (sys : Sys) (req : Request) (u : UrlParts),
      req.url = some u → u.pathname = "/cmd" →
      req.method ≠ "GET" → req.method ≠ "OPTIONS" →
      handle env sys req =
        .respond (sendJson 405 (.obj [("error", .str "Method not allowed. Use GET.")]))) ∧
    (∀ (env : Env) (sys : Sys) (req : Request) (u : UrlParts) (k : String),
      env.ADMIN_API_KEY = some k → k ≠ "" →
      req.url = some u → u.pathname = "/cmd" → req.method = "GET" →
      req.xApiKey ≠ some k →
      handle env sys req =
        .respond (sendJson 401 (.obj
          [("error", .str "Unauthorized: missing or invalid API key")]))) ∧
    (∀ (env : Env) (sys : Sys) (req : Request) (u : UrlParts),
      req.url = some u → u.pathname = "/cmd" → req.method = "GET" →
      (REQUIRE_API_KEY env && authRejects env req) = false →
      (u.command = none ∨ u.command = some "") →
      handle env sys req =
        .respond (sendJson 400 (.obj
          [("error", .str "Missing \"command\" query parameter")]))) ∧
    (∀ (env : Env) (sys : Sys) (req : Request) (u : UrlParts) (c : String),
      req.url = some u → u.pathname = "/cmd" → req.method = "GET" →
      (REQUIRE_API_KEY env && authRejects env req) = false →
      u.command = some c → c ≠ "" → c ∉ ["uptime", "disk", "memory"] →
      handle env sys req =
        .respond (sendJson 403 (.obj [("error", .str "Command not allowed")]))) ∧
    (∀ (env : Env) (sys : Sys) (key : Option String),
      handle env sys ⟨"POST", key, some ⟨"/cmd", none⟩⟩ =
        .respond (sendJson 405 (.obj [("error", .str "Method not allowed. Use GET.")]))) ∧
    (∀ (env : Env) (sys : Sys) (k : String),
      env.ADMIN_API_KEY = some k → k ≠ "" →
      handle env sys ⟨"GET", none, some ⟨"/cmd", none⟩⟩ =
        .respond (sendJson 401 (.obj
          [("error", .str "Unauthorized: missing or invalid API key")]))) := by
  refine ⟨?_, ?_, ?_, ?_, ?_, ?_⟩
  · intro env sys req u hu hp hmg hmo
    exact handle_cmd_bad_method env sys req u hu hp hmg hmo
  · intro env sys req u k hk hk0 hu hp hm hbad
    exact handle_cmd_unauthorized env sys req u k hk hk0 hu hp hm hbad
  · intro env sys req u hu hp hm hauth hc
    rw [handle_cmd_get env sys req u hu hp hm hauth]
    rcases hc with hc | hc <;> rw [hc] <;> rfl
  · intro env sys req u c hu hp hm hauth hc hcne hnot
    simp only [List.mem_cons, List.not_mem_nil, or_false, not_or] at hnot
    obtain ⟨n1, n2, n3⟩ := hnot
    rw [handle_cmd_get env sys req u hu hp hm hauth, hc]
    have ht : jsTruthyOptStr (some c) = true := by simp [jsTruthyOptStr, hcne]
    have hh : hasOwnProperty ALLOWED_COMMANDS c = false := by
      rw [Bool.eq_false_iff]
      intro hcontra
      rcases (hasOwnProperty_allowed_iff c).1 hcontra with h | h | h
      · exact n1 h
      · exact n2 h
      · exact n3 h
    simp [cmdDispatch, ht, hh]
  · intro env sys key
    exact handle_cmd_bad_method env sys ⟨"POST", key, some ⟨"/cmd", none⟩⟩
      ⟨"/cmd", none⟩ rfl rfl (by simp) (by simp)
  · intro env sys k hk hk0
    exact handle_cmd_unauthorized env sys ⟨"GET", none, some ⟨"/cmd", none⟩⟩
      ⟨"/cmd", none⟩ k hk hk0 rfl rfl rfl (by simp)

theorem cmd_check_order_witness :
    handle ⟨none, none⟩ ⟨"v20.11.0", "linux", 0, "2026-01-01T00:00:00.000Z"⟩
        ⟨"POST", none, some ⟨"/cmd", none⟩⟩ =
      .respond (sendJson 405 (.obj [("error", .str "Method not allowed. Use GET.")])) :=
  cmd_check_order.2.2.2.2.1 ⟨none, none⟩
    ⟨"v20.11.0", "linux", 0, "2026-01-01T00:00:00.000Z"⟩ none

/-- C6: a `command` value naming a property inherited from
`Object.prototype` rather than an own key of the registry — "toString",
"constructor", "hasOwnProperty", "__proto__" — is rejected with 403 and
nothing is executed: membership is own-key lookup
(`Object.prototype.hasOwnProperty.call`), not the `in` operator or direct
property access, so inherited properties are not keys. -/
theorem proto_chain_keys_rejected (env : Env) (sys : Sys) (req : Request)
    (u : UrlParts) (c : String)
    (hu : req.url = some u) (hp : u.pathname = "/cmd") (hm : req.method = "GET")
    (hauth : (REQUIRE_API_KEY env && authRejects env req) = false)
    (hc : u.command = some c)
    (hmem : c ∈ ["toString", "constructor", "hasOwnProperty", "__proto__"]) :
    handle env sys req =
      .respond (sendJson 403 (.obj [("error", .str "Command not allowed")])) := by
  rw [handle_cmd_get env sys req u hu hp hm hauth, hc]
  simp only [List.mem_cons, List.not_mem_nil, or_false] at hmem
  rcases hmem with rfl | rfl | rfl | rfl <;> rfl

theorem proto_chain_keys_rejected_witness :
    handle ⟨none, none⟩ ⟨"v20.11.0", "linux", 0, "2026-01-01T00:00:00.000Z"⟩
        ⟨"GET", none, some ⟨"/cmd", some "__proto__"⟩⟩ =
      .respond (sendJson 403 (.obj [("error", .str "Command not allowed")])) :=
  proto_chain_keys_rejected ⟨none, none⟩
    ⟨"v20.11.0", "linux", 0, "2026-01-01T00:00:00.000Z"⟩
    ⟨"GET", none, some ⟨"/cmd", some "__proto__"⟩⟩ ⟨"/cmd", some "__proto__"⟩
    "__proto__" rfl rfl rfl rfl rfl (by decide)

/-- C8: a request whose URL fails to parse — the one uncaught-throw site
of the handler, caught by the top-level try/catch — is answered 500 with
body exactly `{error: "Internal server error"}`; no internal error detail
reaches the client body. -/
theorem internal_error_500 (env : Env) (sys : Sys) (req : Request)
    (hmo : req.method ≠ "OPTIONS") (hu : req.url = none) :
    handle env sys req =
      .respond (sendJson 500 (.obj [("error", .str "Internal server error")])) := by
  unfold handle
  rw [if_neg hmo, hu]

theorem internal_error_500_witness :
    handle ⟨none, none⟩ ⟨"v20.11.0", "linux", 0, "2026-01-01T00:00:00.000Z"⟩
        ⟨"GET", none, none⟩ =
      .respond (sendJson 500 (.obj [("error", .str "Internal server error")])) :=
  internal_error_500 ⟨none, none⟩
    ⟨"v20.11.0", "linux", 0, "2026-01-01T00:00:00.000Z"⟩
    ⟨"GET", none, none⟩ (by decide) rfl

/-- C9: every OPTIONS request, whatever its path or headers, is answered
200 with an empty body and the three CORS headers, and no further
processing (routing, auth, command execution) happens. -/
theorem options_preflight (env : Env) (sys : Sys) (req : Request)
    (hm : req.method = "OPTIONS") :
    handle env sys req =
      .respond { status := 200, contentType := none, body := .empty,
                 corsHeaders := true } ∧
    Response.headers { status := 200, contentType := none, body := .empty,
                       corsHeaders := true } = corsHeaderList := by
  constructor
  · unfold handle
    rw [hm]
    rfl
  · rfl

theorem options_preflight_witness :
    handle ⟨none, some "secret"⟩ ⟨"v20.11.0", "linux", 0, "2026-01-01T00:00:00.000Z"⟩
        ⟨"OPTIONS", none, some ⟨"/cmd", some "uptime"⟩⟩ =
      .respond { status := 200, contentType := none, body := .empty,
                 corsHeaders := true } ∧
    Response.headers { status := 200, contentType := none, body := .empty,
                       corsHeaders := true } = corsHeaderList :=
  options_preflight ⟨none, some "secret"⟩
    ⟨"v20.11.0", "linux", 0, "2026-01-01T00:00:00.000Z"⟩
    ⟨"OPTIONS", none, some ⟨"/cmd", some "uptime"⟩⟩ rfl

/-- C10: a non-OPTIONS request whose parsed path is none of "/",
"/index.html", "/health", "/cmd" is answered 404, text/plain, body
exactly "Not Found". -/
theorem unknown_path_404 (env : Env) (sys : Sys) (req : Request) (u : UrlParts)
    (hmo : req.method ≠ "OPTIONS") (hu : req.url = some u)
    (hp : u.pathname ∉ ["/", "/index.html", "/health", "/cmd"]) :
    handle env sys req =
      .respond { status := 404, contentType := some "text/plain",
                 body := .text "Not Found", corsHeaders := true } := by
  simp only [List.mem_cons, List.not_mem_nil, or_false, not_or] at hp
  obtain ⟨p1, p2, p3, p4⟩ := hp
  unfold handle
  rw [if_neg hmo, hu]
  simp [p1, p2, p3, p4]

theorem unknown_path_404_witness :
    handle ⟨none, none⟩ ⟨"v20.11.0", "linux", 0, "2026-01-01T00:00:00.000Z"⟩
        ⟨"GET", none, some ⟨"/admin", none⟩⟩ =
      .respond { status := 404, contentType := some "text/plain",
                 body := .text "Not Found", corsHeaders := true } :=
  unknown_path_404 ⟨none, none⟩
    ⟨"v20.11.0", "linux", 0, "2026-01-01T00:00:00.000Z"⟩
    ⟨"GET", none, some ⟨"/admin", none⟩⟩ ⟨"/admin", none⟩
    (by decide) rfl (by decide)

end App
